import Mathlib

/-!
Shallow embedding of the `hidreport` crate's report-descriptor parser
(`src/lib.rs`).  The crate's submodules `hid.rs` and `types.rs` (item decoder,
typed item classifier and the fixed-width semantic types) are not part of the
sources; where they are needed they are modelled from the specification and
marked as such.  Rust panics (`panic!`, `expect`, `unwrap`, arithmetic
overflow in debug builds) are modelled as an explicit `Failure.panic` error so
that every execution path of the code is a total Lean function.
-/

namespace Hidreport

/-- Modelled from the spec: the fixed-width semantic types of `types.rs`
(not in the sources).  Each is a single-integer wrapper; the claims only
depend on the carried integer, so they are embedded as plain naturals
(unsigned payloads) and integers (sign-extended payloads). -/
abbrev UsagePage := Nat
abbrev UsageId := Nat
abbrev UsageMinimum := Nat
abbrev UsageMaximum := Nat
abbrev LogicalMinimum := Int
abbrev LogicalMaximum := Int
abbrev PhysicalMinimum := Int
abbrev PhysicalMaximum := Int
abbrev UnitExponent := Int
abbrev UnitValue := Nat
abbrev ReportSize := Nat
abbrev ReportId := Nat
abbrev ReportCount := Nat
abbrev DesignatorIndex := Nat
abbrev DesignatorMinimum := Nat
abbrev DesignatorMaximum := Nat
abbrev StringIndex := Nat
abbrev StringMinimum := Nat
abbrev StringMaximum := Nat
abbrev DelimiterValue := Nat

/-- Rust `Direction` (lib.rs): Input / Output / Feature. -/
inductive Direction where
  | input
  | output
  | feature
deriving DecidableEq, Repr

/-- Rust `Collection(u8)` (lib.rs): opaque collection-kind byte. -/
structure Collection where
  val : Nat
deriving DecidableEq, Repr

/-- Rust `Usage` (lib.rs): a resolved (usage_page, usage_id) pair. -/
structure Usage where
  usage_page : UsagePage
  usage_id : UsageId
deriving DecidableEq, Repr

/-- Rust `LogicalRange` (lib.rs). -/
structure LogicalRange where
  minimum : LogicalMinimum
  maximum : LogicalMaximum
deriving DecidableEq, Repr

/-- Rust `PhysicalRange` (lib.rs). -/
structure PhysicalRange where
  minimum : PhysicalMinimum
  maximum : PhysicalMaximum
deriving DecidableEq, Repr

/-- Rust `RangeInclusive<usize>` as stored in fields: `start..=end`.
`end` is a Lean keyword, hence the field is named `last`. -/
structure RangeInc where
  start : Nat
  last : Nat
deriving DecidableEq, Repr

/-- Rust `VariableField` (lib.rs). -/
structure VariableField where
  usage : Usage
  bits : RangeInc
  logical_range : LogicalRange
  physical_range : Option PhysicalRange
  unit : Option UnitValue
  unit_exponent : Option UnitExponent
  collections : List Collection
  report_id : Option ReportId
  direction : Direction
deriving DecidableEq, Repr

/-- Rust `ArrayField` (lib.rs). -/
structure ArrayField where
  usages : List Usage
  bits : RangeInc
  logical_range : LogicalRange
  physical_range : Option PhysicalRange
  unit : Option UnitValue
  unit_exponent : Option UnitExponent
  collections : List Collection
  report_id : Option ReportId
  direction : Direction
deriving DecidableEq, Repr

/-- Rust `ConstantField` (lib.rs). -/
structure ConstantField where
  bits : RangeInc
  report_id : Option ReportId
  direction : Direction
deriving DecidableEq, Repr

/-- Rust `Field` (lib.rs): tagged variant of the three field kinds. -/
inductive Field where
  | variable (f : VariableField)
  | array (f : ArrayField)
  | constant (f : ConstantField)
deriving DecidableEq, Repr

/-- Rust `Field::bits` (lib.rs). -/
def Field.bits : Field → RangeInc
  | .variable f => f.bits
  | .array f => f.bits
  | .constant f => f.bits

/-- Rust `Field::report_id` (lib.rs). -/
def Field.report_id : Field → Option ReportId
  | .variable f => f.report_id
  | .array f => f.report_id
  | .constant f => f.report_id

/-- Rust `Report` (lib.rs). -/
structure Report where
  id : Option Nat
  size : Nat
  items : List Field
  direction : Direction
deriving DecidableEq, Repr

/-- Rust `ReportDescriptor` (lib.rs). -/
structure ReportDescriptor where
  input_reports : List Report
  output_reports : List Report
  feature_reports : List Report
deriving DecidableEq, Repr

/-- Rust `ParserError` (lib.rs) extended with a `panic` case: the parser in
the sources aborts several paths with `panic!` / `expect` / `unwrap`, which a
total embedding must surface as values. -/
inductive Failure where
  | invalidData (offset : Nat) (data : Nat) (message : String)
  | outOfBounds
  | panic (message : String)
deriving DecidableEq, Repr

/-- Rust `Globals` (lib.rs): all-optional snapshot of the ten global items. -/
structure Globals where
  usage_page : Option UsagePage := none
  logical_minimum : Option LogicalMinimum := none
  logical_maximum : Option LogicalMaximum := none
  physical_minimum : Option PhysicalMinimum := none
  physical_maximum : Option PhysicalMaximum := none
  unit_exponent : Option UnitExponent := none
  unit : Option UnitValue := none
  report_size : Option ReportSize := none
  report_id : Option ReportId := none
  report_count : Option ReportCount := none
deriving DecidableEq, Repr

/-- Rust `LocalUsage` (lib.rs): local Usage with optional embedded page. -/
structure LocalUsage where
  usage_page : Option UsagePage
  usage_id : UsageId
deriving DecidableEq, Repr

/-- Rust `Locals` (lib.rs): all-optional snapshot of the local items. -/
structure Locals where
  usage : Option LocalUsage := none
  usage_minimum : Option UsageMinimum := none
  usage_maximum : Option UsageMaximum := none
  designator_index : Option DesignatorIndex := none
  designator_minimum : Option DesignatorMinimum := none
  designator_maximum : Option DesignatorMaximum := none
  string_index : Option StringIndex := none
  string_minimum : Option StringMinimum := none
  string_maximum : Option StringMaximum := none
  delimiter : Option DelimiterValue := none
deriving DecidableEq, Repr

/-- Rust `Offsets` (lib.rs).  The `HashMap<ReportId, usize>` is embedded as a
partial function `ReportId → Option Nat`; the code only uses it through
`contains_key` / `insert` / `get_mut`, for which this is behaviourally
identical. -/
structure Offsets where
  bit_offset : Nat
  bit_offsets : ReportId → Option Nat

/-- Rust `Offsets::new` (lib.rs). -/
def Offsets.new : Offsets :=
  { bit_offset := 0, bit_offsets := fun _ => none }

/-- The current offset of the bucket selected by `report_id`
(lib.rs lines 312-320): the anonymous `bit_offset` for `None`, and for
`Some id` the map entry after the lazy `insert(id, 0)` for a missing key,
i.e. the stored value with default 0. -/
def Offsets.current (offs : Offsets) (rid : Option ReportId) : Nat :=
  match rid with
  | none => offs.bit_offset
  | some id => (offs.bit_offsets id).getD 0

/-- Write-back of the selected bucket after `handle_main_item` advanced the
borrowed `&mut usize` (lib.rs lines 312-320, 330, 370, 390). -/
def Offsets.store (offs : Offsets) (rid : Option ReportId) (v : Nat) : Offsets :=
  match rid with
  | none => { offs with bit_offset := v }
  | some id =>
      { offs with bit_offsets := fun k => if k = id then some v else offs.bit_offsets k }

/-- Rust `Stack` (lib.rs).  The Rust `Vec` keeps the stack top at the end;
here `globals` and `locals` keep the top at the list head.  `collections`
keeps the Rust order (outermost first) because it is copied verbatim into
emitted fields. -/
structure Stack where
  globals : List Globals
  locals : List Locals
  collections : List Collection
deriving Repr

/-- Rust `Stack::new` (lib.rs). -/
def Stack.new : Stack :=
  { globals := [{}], locals := [{}], collections := [] }

/-- Rust `Stack::push` (lib.rs): duplicates the top of the globals stack and
the top of the locals stack; the two `last().unwrap()` calls abort when the
respective stack is empty. -/
def Stack.push (s : Stack) : Except Failure Stack :=
  match s.globals.head?, s.locals.head? with
  | some g, some l =>
      .ok { s with globals := g :: s.globals, locals := l :: s.locals }
  | _, _ => .error (.panic "called Option::unwrap on a None value")

/-- Rust `Stack::pop` (lib.rs): `Vec::pop` on both stacks; silently a no-op
per stack when that stack is already empty. -/
def Stack.pop (s : Stack) : Stack :=
  { s with globals := s.globals.tail, locals := s.locals.tail }

/-- Rust `Stack::reset_locals` (lib.rs): replaces the whole locals stack by a
single default snapshot. -/
def Stack.reset_locals (s : Stack) : Stack :=
  { s with locals := [{}] }

/-- Rust `Stack::globals_const` (lib.rs) without the `unwrap`: the top of the
globals stack, when any. -/
def Stack.globals_const (s : Stack) : Option Globals :=
  s.globals.head?

/-- Rust `Stack::locals_const` (lib.rs) without the `unwrap`: the top of the
locals stack, when any. -/
def Stack.locals_const (s : Stack) : Option Locals :=
  s.locals.head?

/-- Rust `Stack::globals` + the `update_stack!` macro (lib.rs): mutate the
top globals snapshot; `last_mut().unwrap()` aborts on an empty stack. -/
def Stack.modifyGlobals (s : Stack) (f : Globals → Globals) : Except Failure Stack :=
  match s.globals with
  | [] => .error (.panic "called Option::unwrap on a None value")
  | g :: gs => .ok { s with globals := f g :: gs }

/-- Rust `Stack::locals` + the `update_stack!` macro (lib.rs): mutate the
top locals snapshot; `last_mut().unwrap()` aborts on an empty stack. -/
def Stack.modifyLocals (s : Stack) (f : Locals → Locals) : Except Failure Stack :=
  match s.locals with
  | [] => .error (.panic "called Option::unwrap on a None value")
  | l :: ls => .ok { s with locals := f l :: ls }

/-- Rust `RangeInclusive::new(min, max)` over unsigned integers, as iterated
by `compile_usages`: the ids `min, min+1, ..., max` (empty when `min > max`). -/
def rangeInclusive (lo hi : Nat) : List Nat :=
  (List.range (hi + 1 - lo)).map (fun i => lo + i)

/-- Rust `compile_usages` (lib.rs lines 252-292).  The `expect` calls become
`Failure.panic` with the source's messages; `u as u16` becomes `% 65536`. -/
def compile_usages (globals : Globals) (locals : Locals) : Except Failure (List Usage) :=
  match locals.usage_minimum with
  | some min =>
      match locals.usage_maximum with
      | none => .error (.panic "Missing UsageMaximum in locals")
      | some max =>
          match globals.usage_page with
          | none => .error (.panic "Missing UsagePage in globals")
          | some usage_page =>
              .ok ((rangeInclusive min max).map (fun u =>
                { usage_page := usage_page, usage_id := u % 65536 }))
  | none =>
      match locals.usage with
      | none => .error (.panic "Missing Usage in locals")
      | some lu =>
          match lu.usage_page with
          | some up => .ok [{ usage_page := up, usage_id := lu.usage_id }]
          | none =>
              match globals.usage_page with
              | none => .error (.panic "Missing UsagePage in globals")
              | some usage_page => .ok [{ usage_page := usage_page, usage_id := lu.usage_id }]

/-- Modelled from the spec (section 4.2): the typed Main
Input/Output/Feature payload flags of `hid.rs` (not in the sources).  Only
`is_constant` (bit 0) and `is_variable` (bit 1) are read by `lib.rs`. -/
structure MainDataItem where
  is_constant : Bool
  is_variable : Bool
deriving DecidableEq, Repr

/-- Rust `MainItem` (hid.rs, as consumed by lib.rs). -/
inductive MainItem where
  | input (i : MainDataItem)
  | output (i : MainDataItem)
  | feature (i : MainDataItem)
  | collection (kind : Nat)
  | endCollection
deriving DecidableEq, Repr

/-- Rust `GlobalItem` (hid.rs, as consumed by lib.rs). -/
inductive GlobalItem where
  | usagePage (v : UsagePage)
  | logicalMinimum (v : LogicalMinimum)
  | logicalMaximum (v : LogicalMaximum)
  | physicalMinimum (v : PhysicalMinimum)
  | physicalMaximum (v : PhysicalMaximum)
  | unitExponent (v : UnitExponent)
  | unit (v : UnitValue)
  | reportSize (v : ReportSize)
  | reportId (v : ReportId)
  | reportCount (v : ReportCount)
  | push
  | pop
  | reserved
deriving DecidableEq, Repr

/-- Rust `LocalItem` (hid.rs, as consumed by lib.rs). -/
inductive LocalItem where
  | usage (usage_page : Option UsagePage) (usage_id : UsageId)
  | usageMinimum (v : UsageMinimum)
  | usageMaximum (v : UsageMaximum)
  | designatorIndex (v : DesignatorIndex)
  | designatorMinimum (v : DesignatorMinimum)
  | designatorMaximum (v : DesignatorMaximum)
  | stringIndex (v : StringIndex)
  | stringMinimum (v : StringMinimum)
  | stringMaximum (v : StringMaximum)
  | delimiter (v : DelimiterValue)
  | reserved (value : Nat)
deriving DecidableEq, Repr

/-- Rust `ItemType` (hid.rs, as consumed by lib.rs).  `local` is a Lean
keyword, hence the constructor is named `loc`. -/
inductive ItemType where
  | main (m : MainItem)
  | global (g : GlobalItem)
  | loc (l : LocalItem)
  | long
  | reserved
deriving DecidableEq, Repr

/-- The `is_constant` flag read by `handle_main_item` (lib.rs lines 298-303);
`none` models the `panic!("Invalid item for handle_main_item()")` arm. -/
def isConstantOf : MainItem → Option Bool
  | .input i => some i.is_constant
  | .output i => some i.is_constant
  | .feature i => some i.is_constant
  | _ => none

/-- The `is_variable` flag read by `handle_main_item` (lib.rs lines 356-361). -/
def isVariableOf : MainItem → Option Bool
  | .input i => some i.is_variable
  | .output i => some i.is_variable
  | .feature i => some i.is_variable
  | _ => none

/-- The direction computed by `handle_main_item` (lib.rs lines 305-310). -/
def directionOf : MainItem → Option Direction
  | .input _ => some .input
  | .output _ => some .output
  | .feature _ => some .feature
  | _ => none

/-- The captures of the per-field closure of the `is_variable` branch of
`handle_main_item` (lib.rs lines 366-385). -/
structure VarEmit where
  report_size : Nat
  logical_range : LogicalRange
  physical_range : Option PhysicalRange
  unit : Option UnitValue
  unit_exponent : Option UnitExponent
  collections : List Collection
  report_id : Option ReportId
  direction : Direction
deriving Repr

/-- The `is_variable` branch of `handle_main_item` (lib.rs lines 365-385):
iterate `c` over `0..report_count`, threading the borrowed bit offset.
`fuel` is the number of fields still to emit, `c` the running index.  The
`usages.get(c).or_else(|| usages.last()).unwrap()` of the source appears
verbatim (with `unwrap` as a panic), and `*bit_offset + nbits - 1` carries
the debug-build underflow check of Rust's `usize` subtraction. -/
def emitVariables (ctx : VarEmit) (usages : List Usage) :
    Nat → Nat → Nat → Except Failure (List Field × Nat)
  | 0, _, off => .ok ([], off)
  | fuel + 1, c, off =>
      let nbits := ctx.report_size
      if off + nbits = 0 then .error (.panic "attempt to subtract with overflow")
      else
        match (usages[c]?).orElse (fun _ => usages.getLast?) with
        | none => .error (.panic "called Option::unwrap on a None value")
        | some usage =>
            let bits : RangeInc := { start := off, last := off + nbits - 1 }
            let field : Field := .variable
              { usage := usage, bits := bits,
                logical_range := ctx.logical_range,
                physical_range := ctx.physical_range,
                unit := ctx.unit, unit_exponent := ctx.unit_exponent,
                collections := ctx.collections,
                report_id := ctx.report_id, direction := ctx.direction }
            match emitVariables ctx usages fuel (c + 1) (off + nbits) with
            | .error e => .error e
            | .ok (rest, off') => .ok (field :: rest, off')

/-- Rust `handle_main_item` (lib.rs lines 294-408).  The stack is only read
(`globals_const` / `locals_const` / `collections`); the offsets tracker is
the only mutated state and is returned.  Every `expect` / `unwrap` /
`panic!` of the source is a `Failure.panic` with the source's message, and
every Rust `usize` subtraction carries its debug-build underflow check. -/
def handle_main_item (item : MainItem) (stack : Stack) (offsets : Offsets) :
    Except Failure (List Field × Offsets) :=
  match stack.globals_const with
  | none => .error (.panic "called Option::unwrap on a None value")
  | some globals =>
  match stack.locals_const with
  | none => .error (.panic "called Option::unwrap on a None value")
  | some locals =>
  match isConstantOf item, directionOf item with
  | some is_constant, some direction =>
    let off0 := offsets.current globals.report_id
    let report_id := globals.report_id
    match globals.report_size with
    | none => .error (.panic "Missing report size in globals")
    | some report_size =>
    match globals.report_count with
    | none => .error (.panic "Missing report count in globals")
    | some report_count =>
    if is_constant then
      -- source: `let nbits = usize::from(report_size) * usize::from(report_count) - 1;`
      if report_size * report_count = 0 then
        .error (.panic "attempt to subtract with overflow")
      else
        let nbits := report_size * report_count - 1
        let bits : RangeInc := { start := off0, last := off0 + nbits }
        -- source: `*bit_offset += nbits;` (advances by size*count - 1)
        let field : ConstantField := { bits := bits, report_id := report_id, direction := direction }
        .ok ([Field.constant field], offsets.store globals.report_id (off0 + nbits))
    else
      match globals.logical_minimum with
      | none => .error (.panic "Missing LogicalMinimum")
      | some lmin =>
      match globals.logical_maximum with
      | none => .error (.panic "Missing LogicalMaximum")
      | some lmax =>
        let logical_range : LogicalRange := { minimum := lmin, maximum := lmax }
        let physical_range : Option PhysicalRange :=
          match globals.physical_minimum, globals.physical_maximum with
          | some pmin, some pmax => some { minimum := pmin, maximum := pmax }
          | _, _ => none
        let unit := globals.unit
        let unit_exponent := globals.unit_exponent
        match isVariableOf item with
        | none => .error (.panic "Invalid item for handle_main_item()")
        | some is_variable =>
        match compile_usages globals locals with
        | .error e => .error e
        | .ok usages =>
          let collections := stack.collections
          if is_variable then
            match emitVariables
                { report_size := report_size, logical_range := logical_range,
                  physical_range := physical_range, unit := unit,
                  unit_exponent := unit_exponent, collections := collections,
                  report_id := report_id, direction := direction }
                usages report_count 0 off0 with
            | .error e => .error e
            | .ok (fields, off1) => .ok (fields, offsets.store globals.report_id off1)
          else
            let nbits := report_size * report_count
            if off0 + nbits = 0 then
              .error (.panic "attempt to subtract with overflow")
            else
              let bits : RangeInc := { start := off0, last := off0 + nbits - 1 }
              let field : ArrayField :=
                { usages := usages, bits := bits, logical_range := logical_range,
                  physical_range := physical_range, unit := unit,
                  unit_exponent := unit_exponent, collections := collections,
                  report_id := report_id, direction := direction }
              .ok ([Field.array field], offsets.store globals.report_id (off0 + nbits))
  | _, _ => .error (.panic "Invalid item for handle_main_item()")

/-- The state threaded through the item loop of `parse_report_descriptor`
(lib.rs lines 418-520): parser stack, offsets tracker, fields emitted so far
(in emission order, as collected by the `flat_map`). -/
structure ParserState where
  stack : Stack
  offsets : Offsets
  fields : List Field

/-- Initial state of `parse_report_descriptor` (lib.rs lines 421-422). -/
def ParserState.init : ParserState :=
  { stack := Stack.new, offsets := Offsets.new, fields := [] }

/-- Lift a fallible stack update into the parser state. -/
def ParserState.mapStackE (st : ParserState) (f : Stack → Except Failure Stack) :
    Except Failure ParserState :=
  match f st.stack with
  | .error e => .error e
  | .ok s => .ok { st with stack := s }

/-- The `update_stack!` assignments of the ten `Global` setter arms
(lib.rs lines 441-470); `push`, `pop` and `reserved` are identity here and
handled separately in `processItem`. -/
def applyGlobalSet (gi : GlobalItem) (g : Globals) : Globals :=
  match gi with
  | .usagePage v => { g with usage_page := some v }
  | .logicalMinimum v => { g with logical_minimum := some v }
  | .logicalMaximum v => { g with logical_maximum := some v }
  | .physicalMinimum v => { g with physical_minimum := some v }
  | .physicalMaximum v => { g with physical_maximum := some v }
  | .unitExponent v => { g with unit_exponent := some v }
  | .unit v => { g with unit := some v }
  | .reportSize v => { g with report_size := some v }
  | .reportId v => { g with report_id := some v }
  | .reportCount v => { g with report_count := some v }
  | .push => g
  | .pop => g
  | .reserved => g

/-- The `update_stack!` assignments of the `Local` setter arms
(lib.rs lines 478-514). -/
def applyLocalSet (li : LocalItem) (l : Locals) : Locals :=
  match li with
  | .usage up uid => { l with usage := some { usage_page := up, usage_id := uid } }
  | .usageMinimum v => { l with usage_minimum := some v }
  | .usageMaximum v => { l with usage_maximum := some v }
  | .designatorIndex v => { l with designator_index := some v }
  | .designatorMinimum v => { l with designator_minimum := some v }
  | .designatorMaximum v => { l with designator_maximum := some v }
  | .stringIndex v => { l with string_index := some v }
  | .stringMinimum v => { l with string_minimum := some v }
  | .stringMaximum v => { l with string_maximum := some v }
  | .delimiter v => { l with delimiter := some v }
  | .reserved _ => l

/-- One iteration of the item loop of `parse_report_descriptor`
(lib.rs lines 424-518), i.e. the body of the `flat_map` closure.  The
`expect("main item parsing failed")` on the `handle_main_item` result never
fires (that function only panics internally), so its errors propagate
unchanged. -/
def processItem (st : ParserState) (it : ItemType) : Except Failure ParserState :=
  match it with
  | .main (.collection kind) =>
      .ok { st with stack :=
        { st.stack with collections := st.stack.collections ++ [{ val := kind }] } }
  | .main .endCollection =>
      .ok { st with stack :=
        { st.stack with collections := st.stack.collections.dropLast } }
  | .main m =>
      match handle_main_item m st.stack st.offsets with
      | .error e => .error e
      | .ok (fields, offsets) =>
          .ok { stack := st.stack.reset_locals, offsets := offsets,
                fields := st.fields ++ fields }
  | .long => .ok st
  | .reserved => .ok st
  | .global .push => st.mapStackE Stack.push
  | .global .pop => .ok { st with stack := st.stack.pop }
  | .global .reserved => .ok st
  | .global gi => st.mapStackE (fun s => s.modifyGlobals (applyGlobalSet gi))
  | .loc (.reserved _) => .ok st
  | .loc li => st.mapStackE (fun s => s.modifyLocals (applyLocalSet li))

/-- The item loop of `parse_report_descriptor` (lib.rs lines 424-520). -/
def processItems : List ItemType → ParserState → Except Failure ParserState
  | [], st => .ok st
  | it :: rest, st =>
      match processItem st it with
      | .error e => .error e
      | .ok st' => processItems rest st'

/-- Whether the collected field list mixes fields with and without a report
id.  Rust's `sort_by` (lib.rs lines 523-536) invokes its comparator on a
pair of one id-carrying and one id-less field exactly when both kinds are
present, and the comparator then hits
`panic!("All reports must have a report ID")`. -/
def mixedReportIds (fields : List Field) : Bool :=
  fields.any (fun f => f.report_id.isSome) && fields.any (fun f => f.report_id.isNone)

/-- Rust `parse_report_descriptor` (lib.rs lines 418-543) after item
decoding: the item loop, then the report-id sort whose comparator panics on
a mixed list, then the unconditional `panic!("FIXME")` that stands where the
descriptor assembly should be.  No path returns `Ok`. -/
def parse_report_descriptor_items (items : List ItemType) : Except Failure ReportDescriptor :=
  match processItems items ParserState.init with
  | .error e => .error e
  | .ok st =>
      if mixedReportIds st.fields then
        .error (.panic "All reports must have a report ID")
      else
        .error (.panic "FIXME")

/-- Little-endian value of a data byte list (spec section 6: all multi-byte
payloads are little-endian). -/
def leValue : List Nat → Nat
  | [] => 0
  | b :: rest => b + 256 * leValue rest

/-- Two's-complement sign extension from a payload of `len` bytes
(spec sections 4.1 and 6). -/
def signExtend (len : Nat) (v : Nat) : Int :=
  if len = 0 then 0
  else if v < 2 ^ (8 * len - 1) then (v : Int)
  else (v : Int) - 2 ^ (8 * len)

/-- Modelled from the spec: decoding of the Main Input/Output/Feature flag
payload (spec section 4.2): bit 0 is `is_constant`, bit 1 is `is_variable`;
missing payload bytes default to zero. -/
def mainFlags (v : Nat) : MainDataItem :=
  { is_constant := v % 2 = 1, is_variable := v / 2 % 2 = 1 }

/-- Modelled from the spec: the typed item classifier for Main items
(`hid.rs`, not in the sources).  Tag numbers are those of HID 1.11 section
6.2.2, which the spec (section 6) takes verbatim: Input 8, Output 9,
Collection 10, Feature 11, EndCollection 12; unknown tags are Reserved. -/
def classifyMain (tag : Nat) (data : List Nat) : ItemType :=
  let v := leValue data
  match tag with
  | 8 => .main (.input (mainFlags v))
  | 9 => .main (.output (mainFlags v))
  | 11 => .main (.feature (mainFlags v))
  | 10 => .main (.collection (v % 256))
  | 12 => .main .endCollection
  | _ => .reserved

/-- Modelled from the spec: the typed item classifier for Global items
(`hid.rs`, not in the sources).  LogicalMin/Max, PhysicalMin/Max and
UnitExponent are sign-extended from the declared payload length
(spec sections 4.1 and 6); the rest are zero-extended. -/
def classifyGlobal (tag len : Nat) (data : List Nat) : ItemType :=
  let v := leValue data
  match tag with
  | 0 => .global (.usagePage v)
  | 1 => .global (.logicalMinimum (signExtend len v))
  | 2 => .global (.logicalMaximum (signExtend len v))
  | 3 => .global (.physicalMinimum (signExtend len v))
  | 4 => .global (.physicalMaximum (signExtend len v))
  | 5 => .global (.unitExponent (signExtend len v))
  | 6 => .global (.unit v)
  | 7 => .global (.reportSize v)
  | 8 => .global (.reportId v)
  | 9 => .global (.reportCount v)
  | 10 => .global .push
  | 11 => .global .pop
  | _ => .global .reserved

/-- Modelled from the spec: the typed item classifier for Local items
(`hid.rs`, not in the sources).  A Usage with a 4-byte payload embeds the
page in the high 16 bits (spec section 4.2). -/
def classifyLocal (tag len : Nat) (data : List Nat) : ItemType :=
  let v := leValue data
  match tag with
  | 0 =>
      if len = 4 then .loc (.usage (some (v / 65536)) (v % 65536))
      else .loc (.usage none v)
  | 1 => .loc (.usageMinimum v)
  | 2 => .loc (.usageMaximum v)
  | 3 => .loc (.designatorIndex v)
  | 4 => .loc (.designatorMinimum v)
  | 5 => .loc (.designatorMaximum v)
  | 7 => .loc (.stringIndex v)
  | 8 => .loc (.stringMinimum v)
  | 9 => .loc (.stringMaximum v)
  | 10 => .loc (.delimiter v)
  | _ => .loc (.reserved v)

/-- Modelled from the spec: one short item's classification by the type
bits (spec section 4.1: bits 2-3 are Main=0 / Global=1 / Local=2 /
Reserved=3; bits 4-7 are the tag). -/
def classifyShort (prefixByte len : Nat) (data : List Nat) : ItemType :=
  match prefixByte / 4 % 4 with
  | 0 => classifyMain (prefixByte / 16) data
  | 1 => classifyGlobal (prefixByte / 16) len data
  | 2 => classifyLocal (prefixByte / 16) len data
  | _ => .reserved

/-- Modelled from the spec: the low-level item decoder (`hid.rs`, not in the
sources; spec section 4.1).  A short item's prefix encodes the data length
in bits 0-1 (0, 1, 2 or 4 bytes, little-endian data following).  A long
item (prefix `0xFE`) carries a length byte, a tag byte and that many data
bytes, and is classified `Long`.  Fewer remaining bytes than declared is
`OutOfBounds`. -/
def decodeItemsAux : Nat → List Nat → Except Failure (List ItemType)
  | _, [] => .ok []
  | 0, _ :: _ => .error (.panic "decoder fuel exhausted (unreachable)")
  | fuel + 1, b :: rest =>
      if b = 0xFE then
        match rest with
        | len :: _tag :: rest2 =>
            if len ≤ rest2.length then
              match decodeItemsAux fuel (rest2.drop len) with
              | .error e => .error e
              | .ok tail => .ok (ItemType.long :: tail)
            else .error .outOfBounds
        | _ => .error .outOfBounds
      else
        let len := if b % 4 = 3 then 4 else b % 4
        if len ≤ rest.length then
          match decodeItemsAux fuel (rest.drop len) with
          | .error e => .error e
          | .ok tail => .ok (classifyShort b len (rest.take len) :: tail)
        else .error .outOfBounds

/-- The decoder proper: every item consumes at least its prefix byte, so
`bytes.length` steps of fuel always suffice and the fuel-exhausted branch of
`decodeItemsAux` is unreachable. -/
def decodeItems (bytes : List Nat) : Except Failure (List ItemType) :=
  decodeItemsAux bytes.length bytes

/-- Rust `parse_report_descriptor` (lib.rs lines 418-543) from raw bytes:
item decoding (`hid::ReportDescriptorItems::try_from`, modelled from the
spec) followed by the item loop and assembly of
`parse_report_descriptor_items`. -/
def parse_report_descriptor (bytes : List Nat) : Except Failure ReportDescriptor :=
  match decodeItems bytes with
  | .error e => .error e
  | .ok items => parse_report_descriptor_items items

/-- The mouse boot descriptor of spec section 8, as raw bytes. -/
def mouseBootBytes : List Nat :=
  [0x05, 0x01, 0x09, 0x02, 0xA1, 0x01, 0x09, 0x01, 0xA1, 0x00,
   0x05, 0x09, 0x19, 0x01, 0x29, 0x03, 0x15, 0x00, 0x25, 0x01,
   0x95, 0x03, 0x75, 0x01, 0x81, 0x02, 0x95, 0x01, 0x75, 0x05,
   0x81, 0x03, 0x05, 0x01, 0x09, 0x30, 0x09, 0x31, 0x15, 0x81,
   0x25, 0x7F, 0x75, 0x08, 0x95, 0x02, 0x81, 0x06, 0xC0, 0xC0]

/-- A data-field Main item of a given direction. -/
def mainData (d : Direction) (i : MainDataItem) : MainItem :=
  match d with
  | .input => .input i
  | .output => .output i
  | .feature => .feature i

/-- C1: the claim says that for every byte sequence the item decoder
accepts — for example the mouse boot descriptor — `parse_report_descriptor`
returns `Ok` with a `ReportDescriptor`, and errors only ever as `Err`,
never via a panic.  The code does the opposite: on the mouse boot
descriptor it reaches the unconditional `panic!("FIXME")` placed where the
descriptor assembly should be, and in general no item sequence whatsoever
makes the item-level parser return `Ok`. -/
theorem c1_parser_never_returns_ok :
    parse_report_descriptor mouseBootBytes = .error (.panic "FIXME")
    ∧ ∀ items : List ItemType, (parse_report_descriptor_items items).isOk = false := by
  refine ⟨rfl, ?_⟩
  intro items
  cases h : processItems items ParserState.init with
  | error e => simp [parse_report_descriptor_items, h, Except.isOk, Except.toBool]
  | ok st =>
      by_cases hm : mixedReportIds st.fields <;>
        simp [parse_report_descriptor_items, h, hm, Except.isOk, Except.toBool]

/-- A stack whose top globals carry `report_size = 5`, `report_count = 1`
and no report id: the state in which the mouse boot descriptor's 5-bit
padding constant is emitted. -/
def c2Stack : Stack :=
  { globals := [{ report_size := some 5, report_count := some 1 }],
    locals := [{}], collections := [] }

/-- An offsets tracker whose anonymous bucket already sits at bit 3. -/
def c2Offsets : Offsets := { bit_offset := 3, bit_offsets := fun _ => none }

/-- C2: the claim says a `ConstantField` advances the offset by
`report_size × report_count` bits.  In the code the constant branch sets
`nbits = report_size * report_count - 1` and then does `*bit_offset += nbits`,
so the emitted field's range is right (`[3..=7]`, five bits) but the bucket
advances only to 7 instead of `3 + 5 × 1 = 8`. -/
theorem c2_constant_field_advances_one_bit_short :
    (handle_main_item (.input { is_constant := true, is_variable := false })
        c2Stack c2Offsets).map (fun r => (r.1, r.2.bit_offset))
      = .ok ([Field.constant
          { bits := { start := 3, last := 7 }, report_id := none, direction := .input }], 7)
    ∧ (7 : Nat) ≠ 3 + 5 * 1 := by
  exact ⟨rfl, by decide⟩

/-- A pending local Usage followed by a Collection main item. -/
def c3aItems : List ItemType := [.loc (.usage none 1), .main (.collection 1)]

/-- A pending local Usage followed by an EndCollection main item. -/
def c3bItems : List ItemType := [.loc (.usage none 1), .main .endCollection]

/-- C3: the claim says the locals snapshot equals the fully zeroed default
after every Main item, including Collection and EndCollection.  The code
calls `reset_locals` only in the Input/Output/Feature arm, so a pending
local Usage survives both a Collection and an EndCollection item. -/
theorem c3_locals_survive_collection_items :
    (processItems c3aItems ParserState.init).map (fun st => st.stack.locals_const)
      = .ok (some { usage := some { usage_page := none, usage_id := 1 } })
    ∧ (processItems c3bItems ParserState.init).map (fun st => st.stack.locals_const)
      = .ok (some { usage := some { usage_page := none, usage_id := 1 } })
    ∧ ({ usage := some { usage_page := none, usage_id := 1 } } : Locals) ≠ ({} : Locals) := by
  exact ⟨rfl, rfl, by decide⟩

/-- C4: the claim says a Global Pop on a globals stack of height one fails
the parse with `InvalidData`.  The code's `Stack::pop` is an unchecked
`Vec::pop`: processing a lone Pop succeeds and leaves the globals stack
empty, violating the non-emptiness invariant instead of erroring. -/
theorem c4_pop_on_height_one_silently_empties_stack :
    (processItems [ItemType.global .pop] ParserState.init).map
        (fun st => st.stack.globals) = .ok [] := rfl

/-- Two Input data fields, the first without and the second with a report
id: a mixed-report-id descriptor within one direction. -/
def c5Items : List ItemType :=
  [.global (.reportSize 8), .global (.reportCount 1),
   .global (.logicalMinimum 0), .global (.logicalMaximum 1),
   .loc (.usage (some 1) 1),
   .main (.input { is_constant := false, is_variable := true }),
   .global (.reportId 1),
   .loc (.usage (some 1) 2),
   .main (.input { is_constant := false, is_variable := true })]

/-- C5: the claim says mixed report-id presence within one direction is
reported as an `InvalidData` error to the caller.  The code's sort
comparator `panic!`s with "All reports must have a report ID" instead, so
the failure is a panic, not an `Err(InvalidData)`. -/
theorem c5_mixed_report_ids_panic :
    parse_report_descriptor_items c5Items
      = .error (.panic "All reports must have a report ID")
    ∧ ∀ o d m, parse_report_descriptor_items c5Items ≠ .error (.invalidData o d m) := by
  refine ⟨rfl, ?_⟩
  intro o d m h
  rw [show parse_report_descriptor_items c5Items
        = .error (.panic "All reports must have a report ID") from rfl] at h
  simp at h

/-- A data-field Main item with no preceding globals at all. -/
def c6Items : List ItemType :=
  [.main (.input { is_constant := false, is_variable := true })]

/-- C6 counterexample: the claim says that a Main Input/Output/Feature item
processed while `report_size` is missing fails the parse with an
`InvalidData` error.  The code instead aborts with
`expect("Missing report size in globals")`, i.e. a panic, not
`InvalidData`. -/
theorem c6_counterexample_missing_size_is_panic :
    parse_report_descriptor_items c6Items
      = .error (.panic "Missing report size in globals")
    ∧ ∀ o d m, parse_report_descriptor_items c6Items ≠ .error (.invalidData o d m) := by
  refine ⟨rfl, ?_⟩
  intro o d m h
  rw [show parse_report_descriptor_items c6Items
        = .error (.panic "Missing report size in globals") from rfl] at h
  simp at h

/-- C6 amended: when a Main Input/Output/Feature item is processed while
`report_size` (or, `report_size` being present, `report_count`) is missing
from the current globals snapshot, the parse fails via the `expect` panics
of `handle_main_item` — "Missing report size in globals" respectively
"Missing report count in globals" — rather than with an `InvalidData`
error; no field or partial descriptor is produced. -/
theorem c6_missing_globals_panic (d : Direction) (i : MainDataItem) (st : Stack)
    (offs : Offsets) (g : Globals) (l : Locals)
    (hg : st.globals_const = some g) (hl : st.locals_const = some l) :
    (g.report_size = none →
      handle_main_item (mainData d i) st offs
        = .error (.panic "Missing report size in globals"))
    ∧ (∀ n, g.report_size = some n → g.report_count = none →
      handle_main_item (mainData d i) st offs
        = .error (.panic "Missing report count in globals")) := by
  constructor
  · intro hsz
    cases d <;> simp [mainData, handle_main_item, isConstantOf, directionOf, hg, hl, hsz]
  · intro n hsz hct
    cases d <;> simp [mainData, handle_main_item, isConstantOf, directionOf, hg, hl, hsz, hct]

/-- Witness for the amended C6 at a concrete input: the very first Input
item of a descriptor, before any global was set. -/
theorem c6_missing_globals_panic_witness :
    handle_main_item (mainData .input { is_constant := false, is_variable := true })
        Stack.new Offsets.new
      = .error (.panic "Missing report size in globals") :=
  (c6_missing_globals_panic .input { is_constant := false, is_variable := true }
    Stack.new Offsets.new {} {} rfl rfl).1 rfl

/-- C8: usage resolution in `compile_usages`: with a `UsageMinimum` in
locals (and the `UsageMaximum` and global usage page it then requires), one
Usage per id in `[min..=max]` paired with the global usage page (ids
truncated to 16 bits exactly as the source's `u as u16`); without one, the
single local Usage, whose page is the embedded one when present and the
global usage page otherwise. -/
theorem c8_compile_usages_resolution (g : Globals) (l : Locals) :
    (∀ umin umax up, l.usage_minimum = some umin → l.usage_maximum = some umax →
        g.usage_page = some up →
        compile_usages g l
          = .ok ((rangeInclusive umin umax).map
              (fun u => { usage_page := up, usage_id := u % 65536 })))
    ∧ (∀ lu up, l.usage_minimum = none → l.usage = some lu → lu.usage_page = some up →
        compile_usages g l = .ok [{ usage_page := up, usage_id := lu.usage_id }])
    ∧ (∀ lu up, l.usage_minimum = none → l.usage = some lu → lu.usage_page = none →
        g.usage_page = some up →
        compile_usages g l = .ok [{ usage_page := up, usage_id := lu.usage_id }]) := by
  refine ⟨?_, ?_, ?_⟩
  · intro umin umax up h1 h2 h3
    simp [compile_usages, h1, h2, h3]
  · intro lu up h1 h2 h3
    simp [compile_usages, h1, h2, h3]
  · intro lu up h1 h2 h3 h4
    simp [compile_usages, h1, h2, h3, h4]

/-- Witness for C8 at a concrete input: the mouse boot descriptor's button
block (usage page 9, usage min 1, usage max 3) expands to three usages. -/
theorem c8_compile_usages_resolution_witness :
    compile_usages { usage_page := some 9 }
        { usage_minimum := some 1, usage_maximum := some 3 }
      = .ok [{ usage_page := 9, usage_id := 1 }, { usage_page := 9, usage_id := 2 },
             { usage_page := 9, usage_id := 3 }] := by
  have h := (c8_compile_usages_resolution { usage_page := some 9 }
    { usage_minimum := some 1, usage_maximum := some 3 }).1 1 3 9 rfl rfl rfl
  exact h.trans (by rfl)

/-- Set up globals, push, emit a data field (collapsing the locals stack to
height one via `reset_locals`), then pop. -/
def c10Prefix : List ItemType :=
  [.global (.reportSize 8), .global (.reportCount 1), .global .push,
   .main (.input { is_constant := true, is_variable := false }), .global .pop]

/-- C10: `Stack::push` duplicates the locals snapshot alongside the globals
snapshot and `Stack::pop` removes the top of both stacks, so when a
data-field Main item occurs between a Push and its Pop, `reset_locals` has
collapsed the locals stack to height one and the Pop leaves it empty while
the globals stack stays intact; any later Local item or Main data item then
hits the `unwrap` on the empty locals vector. -/
theorem c10_pop_after_reset_locals_underflows :
    (processItems c10Prefix ParserState.init).map
        (fun st => (st.stack.locals, st.stack.globals.length)) = .ok ([], 1)
    ∧ processItems (c10Prefix ++ [.loc (.usage none 3)]) ParserState.init
        = .error (.panic "called Option::unwrap on a None value")
    ∧ processItems (c10Prefix ++ [.main (.input { is_constant := true, is_variable := false })])
          ParserState.init
        = .error (.panic "called Option::unwrap on a None value") := by
  exact ⟨rfl, rfl, rfl⟩

/-- Total version of the source's per-field usage selection
`usages.get(c).or_else(|| usages.last()).unwrap()`: the `c`-th usage when
`c` is in range, the last usage otherwise (dummy on an empty list, on which
the source `unwrap`s). -/
def pickUsage (usages : List Usage) (c : Nat) : Usage :=
  match (usages[c]?).orElse (fun _ => usages.getLast?) with
  | some u => u
  | none => { usage_page := 0, usage_id := 0 }

theorem usageAt_eq_pickUsage (us : List Usage) (hne : us ≠ []) (c : Nat) :
    (us[c]?).orElse (fun _ => us.getLast?) = some (pickUsage us c) := by
  unfold pickUsage
  cases h : (us[c]?).orElse (fun _ => us.getLast?) with
  | some u => rfl
  | none =>
      exfalso
      cases hc : us[c]? with
      | some u => rw [hc] at h; simp [Option.orElse] at h
      | none =>
          rw [hc] at h
          simp [Option.orElse, List.getLast?_eq_getLast_of_ne_nil hne] at h

theorem pickUsage_lt (us : List Usage) (c : Nat) (h : c < us.length) :
    pickUsage us c = us.get ⟨c, h⟩ := by
  unfold pickUsage
  rw [List.getElem?_eq_getElem h]
  simp [Option.orElse, List.get_eq_getElem]

theorem pickUsage_ge (us : List Usage) (hne : us ≠ []) (c : Nat) (h : us.length ≤ c) :
    us.getLast? = some (pickUsage us c) := by
  unfold pickUsage
  rw [List.getElem?_eq_none h]
  simp [Option.orElse, List.getLast?_eq_getLast_of_ne_nil hne]

/-- Closed form of the `is_variable` emission loop: starting at index `c`
and offset `off`, it emits `fuel` variable fields of `report_size` bits
each, laid out back to back, the `j`-th carrying the usage selected at
index `c + j`; the threaded offset advances by `fuel * report_size`. -/
theorem emitVariables_eq (ctx : VarEmit) (us : List Usage) (hne : us ≠ [])
    (hsz : 1 ≤ ctx.report_size) :
    ∀ (fuel c off : Nat),
      emitVariables ctx us fuel c off
        = .ok (((List.range fuel).map (fun j =>
            Field.variable
              { usage := pickUsage us (c + j),
                bits := { start := off + j * ctx.report_size,
                          last := off + j * ctx.report_size + (ctx.report_size - 1) },
                logical_range := ctx.logical_range, physical_range := ctx.physical_range,
                unit := ctx.unit, unit_exponent := ctx.unit_exponent,
                collections := ctx.collections, report_id := ctx.report_id,
                direction := ctx.direction })),
          off + fuel * ctx.report_size) := by
  intro fuel
  induction fuel with
  | zero => intro c off; simp [emitVariables]
  | succ n ih =>
      intro c off
      rw [emitVariables]
      rw [if_neg (by omega : ¬ (off + ctx.report_size = 0))]
      rw [usageAt_eq_pickUsage us hne c]
      rw [ih (c + 1) (off + ctx.report_size)]
      simp only [List.range_succ_eq_map, List.map_cons, List.map_map]
      simp only [Except.ok.injEq, Prod.mk.injEq, List.cons.injEq]
      refine ⟨⟨?_, ?_⟩, ?_⟩
      · have h0 : off + ctx.report_size - 1 = off + (ctx.report_size - 1) := by omega
        simp [h0]
      · apply List.map_congr_left
        intro j _
        simp only [Function.comp]
        have h1 : c + 1 + j = c + (j + 1) := by omega
        have h2 : off + ctx.report_size + j * ctx.report_size
            = off + (j + 1) * ctx.report_size := by ring
        rw [h1, h2]
      · ring

theorem isConstantOf_mainData (d : Direction) (i : MainDataItem) :
    isConstantOf (mainData d i) = some i.is_constant := by cases d <;> rfl

theorem isVariableOf_mainData (d : Direction) (i : MainDataItem) :
    isVariableOf (mainData d i) = some i.is_variable := by cases d <;> rfl

theorem directionOf_mainData (d : Direction) (i : MainDataItem) :
    directionOf (mainData d i) = some d := by cases d <;> rfl

/-- C7: for a non-constant Main data item with `is_variable` set, exactly
`report_count` VariableFields are emitted, each `report_size` bits wide and
laid out back to back from the bucket's current offset; the `k`-th field
carries `usages[k]` while `k` is in range and the last usage beyond that
(`pickUsage`, whose two regimes the final conjuncts spell out). -/
theorem c7_variable_field_emission (d : Direction) (i : MainDataItem) (st : Stack)
    (offs : Offsets) (g : Globals) (l : Locals) (size count : Nat) (lmin lmax : Int)
    (us : List Usage)
    (hg : st.globals_const = some g) (hl : st.locals_const = some l)
    (hc : i.is_constant = false) (hv : i.is_variable = true)
    (hsz : g.report_size = some size) (hct : g.report_count = some count)
    (hlm : g.logical_minimum = some lmin) (hlx : g.logical_maximum = some lmax)
    (hus : compile_usages g l = .ok us) (hne : us ≠ []) (hsz1 : 1 ≤ size) :
    handle_main_item (mainData d i) st offs
      = .ok (((List.range count).map (fun k =>
          Field.variable
            { usage := pickUsage us k,
              bits := { start := offs.current g.report_id + k * size,
                        last := offs.current g.report_id + k * size + (size - 1) },
              logical_range := { minimum := lmin, maximum := lmax },
              physical_range := (match g.physical_minimum, g.physical_maximum with
                | some pmin, some pmax => some { minimum := pmin, maximum := pmax }
                | _, _ => none),
              unit := g.unit, unit_exponent := g.unit_exponent,
              collections := st.collections, report_id := g.report_id,
              direction := d })),
        offs.store g.report_id (offs.current g.report_id + count * size))
    ∧ (∀ k (hk : k < us.length), pickUsage us k = us.get ⟨k, hk⟩)
    ∧ (∀ k, us.length ≤ k → us.getLast? = some (pickUsage us k)) := by
  refine ⟨?_, fun k hk => pickUsage_lt us k hk, fun k hk => pickUsage_ge us hne k hk⟩
  simp only [handle_main_item, isConstantOf_mainData, isVariableOf_mainData,
    directionOf_mainData, hg, hl, hsz, hct, hlm, hlx, hus, hc, hv]
  rw [emitVariables_eq
    { report_size := size,
      logical_range := { minimum := lmin, maximum := lmax },
      physical_range := (match g.physical_minimum, g.physical_maximum with
        | some pmin, some pmax => some { minimum := pmin, maximum := pmax }
        | _, _ => none),
      unit := g.unit, unit_exponent := g.unit_exponent,
      collections := st.collections, report_id := g.report_id, direction := d }
    us hne hsz1 count 0 (offs.current g.report_id)]
  simp

/-- The mouse boot descriptor's button state at the first Input item:
usage page 9, usages 1..3 via min/max, logical 0..1, three 1-bit fields. -/
def c7Stack : Stack :=
  { globals := [{ usage_page := some 9, logical_minimum := some 0, logical_maximum := some 1,
                  report_size := some 1, report_count := some 3 }],
    locals := [{ usage_minimum := some 1, usage_maximum := some 3 }],
    collections := [] }

/-- Witness for C7 at a concrete input: three 1-bit button fields at bits
0, 1 and 2, with usages (9,1), (9,2), (9,3); the bucket advances to 3. -/
theorem c7_variable_field_emission_witness :
    (handle_main_item (mainData .input { is_constant := false, is_variable := true })
        c7Stack Offsets.new).map (fun r => (r.1, r.2.bit_offset))
      = .ok ([Field.variable
          { usage := { usage_page := 9, usage_id := 1 },
            bits := { start := 0, last := 0 },
            logical_range := { minimum := 0, maximum := 1 },
            physical_range := none, unit := none, unit_exponent := none,
            collections := [], report_id := none, direction := .input },
        Field.variable
          { usage := { usage_page := 9, usage_id := 2 },
            bits := { start := 1, last := 1 },
            logical_range := { minimum := 0, maximum := 1 },
            physical_range := none, unit := none, unit_exponent := none,
            collections := [], report_id := none, direction := .input },
        Field.variable
          { usage := { usage_page := 9, usage_id := 3 },
            bits := { start := 2, last := 2 },
            logical_range := { minimum := 0, maximum := 1 },
            physical_range := none, unit := none, unit_exponent := none,
            collections := [], report_id := none, direction := .input }], 3) := by
  have h := (c7_variable_field_emission .input { is_constant := false, is_variable := true }
    c7Stack Offsets.new _ _ 1 3 0 1
    [{ usage_page := 9, usage_id := 1 }, { usage_page := 9, usage_id := 2 },
     { usage_page := 9, usage_id := 3 }]
    rfl rfl rfl rfl rfl rfl rfl rfl rfl (by decide) (by decide)).1
  rw [h]
  rfl

/-- Net effect of one Global item on the height of the globals stack
(`push` duplicates, `pop` removes, every other Global item mutates in
place). -/
def globalHeightStep (n : Nat) : GlobalItem → Nat
  | .push => n + 1
  | .pop => n - 1
  | _ => n

/-- `admissibleFrom n w` holds when processing the Global items `w` never
reaches below the topmost `n` globals snapshots: before every step the
remaining region is nonempty.  For `n = 1` this is exactly "no intervening
unmatched Pop". -/
def admissibleFrom : Nat → List GlobalItem → Bool
  | _, [] => true
  | n, gi :: w => decide (1 ≤ n) && admissibleFrom (globalHeightStep n gi) w

/-- Region height after processing the Global items `w`. -/
def heightAfter : Nat → List GlobalItem → Nat
  | n, [] => n
  | n, gi :: w => heightAfter (globalHeightStep n gi) w

/-- One-step unfolding of `processItems`. -/
theorem processItems_cons (it : ItemType) (rest : List ItemType) (st : ParserState) :
    processItems (it :: rest) st
      = match processItem st it with
        | .error e => .error e
        | .ok st' => processItems rest st' := rfl

/-- `processItems` splits along list append. -/
theorem processItems_append (a b : List ItemType) :
    ∀ st : ParserState,
      processItems (a ++ b) st
        = match processItems a st with
          | .error e => .error e
          | .ok st' => processItems b st' := by
  induction a with
  | nil => intro st; rfl
  | cons it rest ih =>
      intro st
      rw [List.cons_append, processItems_cons, processItems_cons]
      cases h : processItem st it with
      | error e => rfl
      | ok st' => exact ih st'

/-- One Global item only touches the top of the globals/locals stacks: with
nonempty top regions `R`/`RL` it succeeds, leaves the frames `F`/`FL`, the
collections, the offsets and the collected fields untouched, and changes
the region heights by `globalHeightStep`. -/
theorem processItem_global_frame (gi : GlobalItem) (R : List Globals) (RL : List Locals)
    (F : List Globals) (FL : List Locals) (cs : List Collection) (offs : Offsets)
    (fs : List Field) (hR : R ≠ []) (hRL : RL ≠ []) :
    ∃ R' RL',
      processItem { stack := { globals := R ++ F, locals := RL ++ FL, collections := cs },
                    offsets := offs, fields := fs } (.global gi)
        = .ok { stack := { globals := R' ++ F, locals := RL' ++ FL, collections := cs },
                offsets := offs, fields := fs }
      ∧ R'.length = globalHeightStep R.length gi
      ∧ RL'.length = globalHeightStep RL.length gi := by
  obtain ⟨r, R₁, rfl⟩ := List.exists_cons_of_ne_nil hR
  obtain ⟨rl, RL₁, rfl⟩ := List.exists_cons_of_ne_nil hRL
  cases gi with
  | push => exact ⟨r :: r :: R₁, rl :: rl :: RL₁, rfl, rfl, rfl⟩
  | pop => exact ⟨R₁, RL₁, rfl, rfl, rfl⟩
  | reserved => exact ⟨r :: R₁, rl :: RL₁, rfl, rfl, rfl⟩
  | usagePage v => exact ⟨applyGlobalSet (.usagePage v) r :: R₁, rl :: RL₁, rfl, rfl, rfl⟩
  | logicalMinimum v =>
      exact ⟨applyGlobalSet (.logicalMinimum v) r :: R₁, rl :: RL₁, rfl, rfl, rfl⟩
  | logicalMaximum v =>
      exact ⟨applyGlobalSet (.logicalMaximum v) r :: R₁, rl :: RL₁, rfl, rfl, rfl⟩
  | physicalMinimum v =>
      exact ⟨applyGlobalSet (.physicalMinimum v) r :: R₁, rl :: RL₁, rfl, rfl, rfl⟩
  | physicalMaximum v =>
      exact ⟨applyGlobalSet (.physicalMaximum v) r :: R₁, rl :: RL₁, rfl, rfl, rfl⟩
  | unitExponent v =>
      exact ⟨applyGlobalSet (.unitExponent v) r :: R₁, rl :: RL₁, rfl, rfl, rfl⟩
  | unit v => exact ⟨applyGlobalSet (.unit v) r :: R₁, rl :: RL₁, rfl, rfl, rfl⟩
  | reportSize v => exact ⟨applyGlobalSet (.reportSize v) r :: R₁, rl :: RL₁, rfl, rfl, rfl⟩
  | reportId v => exact ⟨applyGlobalSet (.reportId v) r :: R₁, rl :: RL₁, rfl, rfl, rfl⟩
  | reportCount v =>
      exact ⟨applyGlobalSet (.reportCount v) r :: R₁, rl :: RL₁, rfl, rfl, rfl⟩

/-- Multi-step framing: an admissible Global item sequence acts entirely
inside the top regions of the two stacks. -/
theorem processItems_global_frame (w : List GlobalItem) :
    ∀ (R : List Globals) (RL : List Locals) (F : List Globals) (FL : List Locals)
      (cs : List Collection) (offs : Offsets) (fs : List Field),
      admissibleFrom R.length w = true → RL.length = R.length →
      ∃ R' RL',
        processItems (w.map ItemType.global)
            { stack := { globals := R ++ F, locals := RL ++ FL, collections := cs },
              offsets := offs, fields := fs }
          = .ok { stack := { globals := R' ++ F, locals := RL' ++ FL, collections := cs },
                  offsets := offs, fields := fs }
        ∧ R'.length = heightAfter R.length w ∧ RL'.length = R'.length := by
  induction w with
  | nil =>
      intro R RL F FL cs offs fs _ hlen
      exact ⟨R, RL, rfl, rfl, hlen⟩
  | cons gi w ih =>
      intro R RL F FL cs offs fs hadm hlen
      have hadm' := hadm
      simp only [admissibleFrom, Bool.and_eq_true, decide_eq_true_eq] at hadm'
      have hR : R ≠ [] := by
        intro hnil
        rw [hnil] at hadm'
        simp at hadm'
      have hRL : RL ≠ [] := by
        intro hnil
        rw [hnil] at hlen
        exact hR (List.eq_nil_of_length_eq_zero hlen.symm)
      obtain ⟨R₂, RL₂, hstep, hR₂, hRL₂⟩ :=
        processItem_global_frame gi R RL F FL cs offs fs hR hRL
      have hadm₂ : admissibleFrom R₂.length w = true := by
        rw [hR₂]; exact hadm'.2
      have hlen₂ : RL₂.length = R₂.length := by
        rw [hR₂, hRL₂, hlen]
      obtain ⟨R', RL', hrest, hh, hll⟩ := ih R₂ RL₂ F FL cs offs fs hadm₂ hlen₂
      refine ⟨R', RL', ?_, ?_, hll⟩
      · rw [List.map_cons, processItems_cons, hstep]
        exact hrest
      · rw [hh, hR₂]
        rfl

/-- C9: Push/Pop round-trip.  For any sequence `w` of Global items that is
balanced relative to the pushed frame (`admissibleFrom 1`: no intervening
unmatched Pop; `heightAfter 1 w = 1`: the final Pop matches the Push),
processing `Push ++ w ++ [Pop]` succeeds and restores the top globals
snapshot that was current immediately before the Push, whatever global
fields `w` set in between. -/
theorem c9_push_pop_roundtrip (w : List GlobalItem) (st : ParserState) (g : Globals)
    (hadm : admissibleFrom 1 w = true) (hh : heightAfter 1 w = 1)
    (hg : st.stack.globals.head? = some g) (hloc : st.stack.locals ≠ []) :
    ∃ st',
      processItems (((GlobalItem.push :: w) ++ [GlobalItem.pop]).map ItemType.global) st
        = .ok st'
      ∧ st'.stack.globals.head? = some g := by
  obtain ⟨stack, offs, fs⟩ := st
  obtain ⟨gl, lo, cs⟩ := stack
  rcases gl with _ | ⟨x, bs⟩
  · exact absurd hg (by simp)
  obtain rfl : x = g := by simpa using hg
  obtain ⟨l, ls, rfl⟩ := List.exists_cons_of_ne_nil hloc
  obtain ⟨R', RL', hrest, hh', hll⟩ :=
    processItems_global_frame w [x] [l] (x :: bs) (l :: ls) cs offs fs
      (by simpa using hadm) rfl
  simp only [List.length_singleton] at hh'
  rw [hh] at hh'
  obtain ⟨y, rfl⟩ := List.length_eq_one.mp hh'
  obtain ⟨z, rfl⟩ := List.length_eq_one.mp (hll.trans hh')
  have hrest' : processItems (w.map ItemType.global)
      { stack := { globals := x :: x :: bs, locals := l :: l :: ls, collections := cs },
        offsets := offs, fields := fs }
      = .ok { stack := { globals := y :: x :: bs, locals := z :: l :: ls, collections := cs },
              offsets := offs, fields := fs } := hrest
  refine ⟨{ stack := { globals := x :: bs, locals := l :: ls, collections := cs },
            offsets := offs, fields := fs }, ?_, rfl⟩
  rw [List.cons_append, List.map_cons]
  rw [show processItems
        (ItemType.global GlobalItem.push :: (w ++ [GlobalItem.pop]).map ItemType.global)
        { stack := { globals := x :: bs, locals := l :: ls, collections := cs },
          offsets := offs, fields := fs }
      = processItems ((w ++ [GlobalItem.pop]).map ItemType.global)
        { stack := { globals := x :: x :: bs, locals := l :: l :: ls, collections := cs },
          offsets := offs, fields := fs } from rfl]
  rw [List.map_append, processItems_append, hrest']
  rfl

/-- Witness for C9 at a concrete input: Push, set the usage page, Pop; the
top globals snapshot afterwards is again the initial default snapshot. -/
theorem c9_push_pop_roundtrip_witness :
    ∃ st',
      processItems (((GlobalItem.push :: [GlobalItem.usagePage 5]) ++ [GlobalItem.pop]).map
          ItemType.global) ParserState.init = .ok st'
      ∧ st'.stack.globals.head? = some {} :=
  c9_push_pop_roundtrip [GlobalItem.usagePage 5] ParserState.init {} rfl rfl rfl (by decide)

end Hidreport
